import Mathlib

/-!
Shallow embedding of the x402 payment core of the arc-shopper repository:
the local facilitator (verify / settle, `src/facilitator/index.ts`, which
contains two variants of the class separated by a document marker), and the
gated digital-products handler with its purchase history and receipt signer
(`api/x402/products.ts`, `api/x402/history.ts`, `api/x402/receipt.ts`).

Library primitives (EIP-712 digesting and ECDSA recovery, keccak/sha256
hashing, the JSON-RPC ledger) are modelled as explicit function parameters
or structural data; everything the repository's own code computes is
translated directly.
-/

namespace X402

/-- ASCII lowercasing, modelling JavaScript `String.prototype.toLowerCase`
as used on hex address strings (character-list based so that it evaluates
by kernel reduction). -/
def lowerStr (s : String) : String :=
  ⟨s.data.map Char.toLower⟩

/-- Hex digit test (0-9, a-f, A-F). -/
def isHexChar (c : Char) : Bool :=
  c.isDigit || (97 ≤ c.toNat && c.toNat ≤ 102) || (65 ≤ c.toNat && c.toNat ≤ 70)

/-- Well-formedness of an address string: `0x` followed by 40 hex digits. -/
def isAddressString (s : String) : Bool :=
  match s.data with
  | '0' :: 'x' :: rest => rest.length == 40 && rest.all isHexChar
  | _ => false

/-- Model of `ethers.getAddress`: accepts a `0x`-prefixed 40-hex-digit string
and returns it (checksum-case normalization is abstracted away: the model
returns the input unchanged where ethers returns the checksummed spelling),
and rejects (throws, modelled as `none`) anything else. -/
def getAddress (s : String) : Option String :=
  if isAddressString s then some s else none

/-- Parse a decimal natural-number string; `none` models the exception
`ethers.formatUnits` raises on a non-numeric amount string. -/
def parseDecNat (s : String) : Option Nat :=
  if s.data.length > 0 && s.data.all Char.isDigit then
    some (s.data.foldl (fun acc c => acc * 10 + (c.toNat - 48)) 0)
  else none

/-! ## Facilitator data model (`src/facilitator/index.ts`) -/

def FACILITATOR_VERSION : String := "2"

def SUPPORTED_NETWORKS : List String := ["eip155:5042002"]

/-- `VerifyRequest.paymentDetails`. -/
structure PaymentDetails where
  version : String
  scheme : String
  networkId : String
  asset : String
  amount : String
  recipient : String
  nonce : String
  expiry : Nat
deriving Repr, DecidableEq

/-- `VerifyRequest`. -/
structure VerifyRequest where
  signature : String
  paymentDetails : PaymentDetails
  signer : String
deriving Repr, DecidableEq

/-- `VerifyResponse`. -/
structure VerifyResponse where
  valid : Bool
  signerVerified : Bool
  networkMatch : Bool
  notExpired : Bool
  error : Option String
deriving Repr, DecidableEq

/-- The EIP-712 domain tuple. -/
structure Domain where
  name : String
  version : String
  chainId : Nat
  verifyingContract : String
deriving Repr, DecidableEq

/-- `getDomain(chainId, verifyingContract)`. -/
def getDomain (chainId : Nat) (verifyingContract : String) : Domain :=
  { name := "x402", version := FACILITATOR_VERSION, chainId := chainId,
    verifyingContract := verifyingContract }

/-- EIP-712 field types occurring in `PAYMENT_TYPES`. -/
inductive FieldType
| string
| address
| uint256
| bytes32
deriving Repr, DecidableEq

/-- `PAYMENT_TYPES.Payment`: the ordered field-name/field-type schema. -/
def PAYMENT_TYPES : List (String × FieldType) :=
  [("version", FieldType.string), ("scheme", FieldType.string),
   ("networkId", FieldType.string), ("asset", FieldType.address),
   ("amount", FieldType.uint256), ("recipient", FieldType.address),
   ("nonce", FieldType.bytes32), ("expiry", FieldType.uint256)]

/-- A field value inside the typed-data document (strings or numbers in the
source record). -/
inductive TDValue
| str (s : String)
| num (n : Nat)
deriving Repr, DecidableEq

/-- The full structured-data document handed to `ethers.verifyTypedData`:
domain, type schema, and the ordered named field values. -/
structure TypedData where
  domain : Domain
  types : List (String × FieldType)
  values : List (String × TDValue)
deriving Repr, DecidableEq

/-- The typed-data document `verifySignature` builds for a payment: domain
from the configured chain id and the claim's asset, the `Payment` schema,
and the claim fields in declaration order. -/
def paymentTypedData (chainId : Nat) (pd : PaymentDetails) : TypedData :=
  { domain := getDomain chainId pd.asset,
    types := PAYMENT_TYPES,
    values := [("version", TDValue.str pd.version), ("scheme", TDValue.str pd.scheme),
               ("networkId", TDValue.str pd.networkId), ("asset", TDValue.str pd.asset),
               ("amount", TDValue.str pd.amount), ("recipient", TDValue.str pd.recipient),
               ("nonce", TDValue.str pd.nonce), ("expiry", TDValue.num pd.expiry)] }

/-- Abstract ECDSA recovery over a typed-data document and a signature:
`some a` is the recovered address, `none` models the exception path of
`ethers.verifyTypedData` (caught in the source, yielding `false`). -/
abbrev Recover := TypedData → String → Option String

/-- The declared type of a named field in a typed-data schema. -/
def fieldTypeOf (types : List (String × FieldType)) (name : String) : Option FieldType :=
  match types.find? (fun p => p.1 == name) with
  | some p => some p.2
  | none => none

/-- Whether every `address`-typed field of a typed-data document holds a
well-formed address string. `ethers.verifyTypedData`'s encoder normalizes
each `address` value through `ethers.getAddress` and throws on a malformed
one, so any recovery behaviour the library can exhibit returns the
exception outcome (`none`) whenever this check fails; a realizable
`Recover` oracle must therefore satisfy
`addressFieldsValid td = false → recover td sig = none`. -/
def addressFieldsValid (td : TypedData) : Bool :=
  td.values.all (fun p =>
    match fieldTypeOf td.types p.1 with
    | some FieldType.address =>
      match p.2 with
      | TDValue.str s => isAddressString s
      | TDValue.num _ => false
    | _ => true)

/-- `LocalFacilitator.verifySignature`: recover the signer of the EIP-712
document and compare to the expected signer case-insensitively. -/
def verifySignature (recover : Recover) (chainId : Nat) (signature : String)
    (pd : PaymentDetails) (expectedSigner : String) : Bool :=
  match recover (paymentTypedData chainId pd) signature with
  | some recoveredAddress => lowerStr recoveredAddress == lowerStr expectedSigner
  | none => false

/-- `LocalFacilitator.verify`. The second component instruments the control
flow: it is `true` exactly when the `verifySignature` recovery step was
reached (the source calls it only after the network and expiry checks
pass). `now` is `Math.floor(Date.now()/1000)` passed explicitly. -/
def verify (recover : Recover) (chainId : Nat) (now : Nat) (req : VerifyRequest) :
    VerifyResponse × Bool :=
  let pd := req.paymentDetails
  let networkMatch := SUPPORTED_NETWORKS.contains pd.networkId
  if !networkMatch then
    ({ valid := false, signerVerified := false, networkMatch := false, notExpired := true,
       error := some ("Unsupported network: " ++ pd.networkId) }, false)
  else
    let notExpired := decide (pd.expiry > now)
    if !notExpired then
      ({ valid := false, signerVerified := false, networkMatch := true, notExpired := false,
         error := some "Payment has expired" }, false)
    else
      let signerVerified := verifySignature recover chainId req.signature pd req.signer
      ({ valid := signerVerified && networkMatch && notExpired,
         signerVerified := signerVerified, networkMatch := networkMatch,
         notExpired := notExpired, error := none }, true)

/-! ## Settlement (`LocalFacilitator.settle`) -/

/-- `SettleResponse.settlementType`. -/
inductive SettlementType
| facilitator
| direct
deriving Repr, DecidableEq

/-- `SettleResponse`. -/
structure SettleResponse where
  success : Bool
  txHash : Option String
  blockNumber : Option Nat
  error : Option String
  settlementType : SettlementType
deriving Repr, DecidableEq

/-- The in-memory `settlements: Map<string, SettleResponse>` keyed by nonce,
as an association list. -/
abbrev Store := List (String × SettleResponse)

/-- `Map.prototype.get`. -/
def storeGet (s : Store) (k : String) : Option SettleResponse :=
  match s with
  | [] => none
  | (k2, v) :: rest => if k2 == k then some v else storeGet rest k

/-- `Map.prototype.set` (overwrite if present, append otherwise). -/
def storeSet (s : Store) (k : String) (v : SettleResponse) : Store :=
  match s with
  | [] => [(k, v)]
  | (k2, v2) :: rest => if k2 == k then (k, v) :: rest else (k2, v2) :: storeSet rest k v

/-- Outcome of the ledger-transfer primitive
`wallet.sendTransaction({to, value})` followed by `tx.wait()`:
`Except.ok (hash, blockNumber)` is a confirmed transfer, `Except.error msg`
models the thrown exception (submission or confirmation failure). -/
abbrev Transfer := String → Nat → Except String (String × Option Nat)

/-- The address the transfer is sent to: `ethers.getAddress(recipient)` when
that succeeds, else the fallback address derived from the keccak hash of the
recipient string (`getAddress('0x' + keccak256(toUtf8Bytes(recipient)).slice(26))`,
abstracted as the function parameter `keccakAddr`). -/
def resolvedRecipient (keccakAddr : String → String) (recipient : String) : String :=
  match getAddress recipient with
  | some a => a
  | none => keccakAddr recipient

/-- Result of one `settle` call: the returned `SettleResponse`, the
settlement store afterwards, and the log of ledger-transfer invocations
(`wallet.sendTransaction` calls), each recorded as the destination address
and the wei value sent. -/
structure SettleOutcome where
  resp : SettleResponse
  store : Store
  transfers : List (String × Nat)
deriving Repr, DecidableEq

/-- `LocalFacilitator.settle`, first variant (the one whose catch branch
returns `{success:false, error:'Transaction failed: ...'}` and does not
touch the store). `ethers.formatUnits(amount, 6)` then
`ethers.parseUnits(·, 18)` turns an integer amount string `n` into
`n * 10^12` wei and throws (to the catch branch) on a non-numeric string. -/
def settle (recover : Recover) (keccakAddr : String → String) (transfer : Transfer)
    (chainId : Nat) (now : Nat) (req : VerifyRequest) (store : Store) : SettleOutcome :=
  let verification := (verify recover chainId now req).1
  if !verification.valid then
    { resp := { success := false, txHash := none, blockNumber := none,
                error := some (verification.error.getD "Payment verification failed"),
                settlementType := SettlementType.facilitator },
      store := store, transfers := [] }
  else
    let settlementKey := req.paymentDetails.nonce
    match storeGet store settlementKey with
    | some existing => { resp := existing, store := store, transfers := [] }
    | none =>
      match parseDecNat req.paymentDetails.amount with
      | none =>
        { resp := { success := false, txHash := none, blockNumber := none,
                    error := some "Transaction failed: invalid amount",
                    settlementType := SettlementType.facilitator },
          store := store, transfers := [] }
      | some n =>
        let amountWei := n * 10 ^ 12
        let recipient := resolvedRecipient keccakAddr req.paymentDetails.recipient
        match transfer recipient amountWei with
        | Except.ok (hash, bn) =>
          let result : SettleResponse :=
            { success := true, txHash := some hash, blockNumber := bn, error := none,
              settlementType := SettlementType.facilitator }
          { resp := result, store := storeSet store settlementKey result, transfers := [(recipient, amountWei)] }
        | Except.error msg =>
          { resp := { success := false, txHash := none, blockNumber := none,
                      error := some ("Transaction failed: " ++ msg),
                      settlementType := SettlementType.facilitator },
            store := store, transfers := [(recipient, amountWei)] }

/-- `LocalFacilitator.settle`, second variant (the one whose catch branch
fabricates a demo transaction hash
`keccak256(toUtf8Bytes(nonce + amount + Date.now()))`, abstracted as the
parameter `demoHash`, returns `{success:true, txHash:demoHash,
settlementType:'direct'}` and caches it under the nonce). -/
def settleAlt (recover : Recover) (keccakAddr : String → String) (transfer : Transfer)
    (demoHash : String) (chainId : Nat) (now : Nat) (req : VerifyRequest) (store : Store) :
    SettleOutcome :=
  let verification := (verify recover chainId now req).1
  if !verification.valid then
    { resp := { success := false, txHash := none, blockNumber := none,
                error := some (verification.error.getD "Payment verification failed"),
                settlementType := SettlementType.facilitator },
      store := store, transfers := [] }
  else
    let settlementKey := req.paymentDetails.nonce
    match storeGet store settlementKey with
    | some existing => { resp := existing, store := store, transfers := [] }
    | none =>
      match parseDecNat req.paymentDetails.amount with
      | none =>
        let result : SettleResponse :=
          { success := true, txHash := some demoHash, blockNumber := none, error := none,
            settlementType := SettlementType.direct }
        { resp := result, store := storeSet store settlementKey result, transfers := [] }
      | some n =>
        let amountWei := n * 10 ^ 12
        let recipient := resolvedRecipient keccakAddr req.paymentDetails.recipient
        match transfer recipient amountWei with
        | Except.ok (hash, bn) =>
          let result : SettleResponse :=
            { success := true, txHash := some hash, blockNumber := bn, error := none,
              settlementType := SettlementType.facilitator }
          { resp := result, store := storeSet store settlementKey result, transfers := [(recipient, amountWei)] }
        | Except.error _ =>
          let result : SettleResponse :=
            { success := true, txHash := some demoHash, blockNumber := none, error := none,
              settlementType := SettlementType.direct }
          { resp := result, store := storeSet store settlementKey result, transfers := [(recipient, amountWei)] }

/-! ### Interleaving model of `settle` for the concurrency claim

The body of `settle` suspends at its `await` points. In particular the
segment from the idempotency check `this.settlements.get(nonce)` up to and
including `wallet.sendTransaction(...)` runs without interruption, but the
cache write `this.settlements.set(nonce, result)` only happens after
`await tx.wait()` resolves. A second task can therefore run its own
check-and-submit segment in between. The two step functions below split
`settle` at exactly that boundary. -/

/-- Where a `settle` task stands between its suspension points. -/
inductive Phase
| start
| submitted (recipient : String) (amountWei : Nat)
| finished (r : SettleResponse)
deriving Repr, DecidableEq

/-- First synchronous segment of `settle`: verification, idempotency check
against the shared store, amount conversion, recipient resolution and
transfer submission. Returns the new phase and whether a ledger transfer
was submitted by this segment. The shared store is read, never written. -/
def stepCheckAndSubmit (recover : Recover) (keccakAddr : String → String)
    (chainId : Nat) (now : Nat) (req : VerifyRequest) (store : Store) : Phase × Bool :=
  let verification := (verify recover chainId now req).1
  if !verification.valid then
    (Phase.finished { success := false, txHash := none, blockNumber := none,
                      error := some (verification.error.getD "Payment verification failed"),
                      settlementType := SettlementType.facilitator }, false)
  else
    match storeGet store req.paymentDetails.nonce with
    | some existing => (Phase.finished existing, false)
    | none =>
      match parseDecNat req.paymentDetails.amount with
      | none =>
        (Phase.finished { success := false, txHash := none, blockNumber := none,
                          error := some "Transaction failed: invalid amount",
                          settlementType := SettlementType.facilitator }, false)
      | some n =>
        (Phase.submitted (resolvedRecipient keccakAddr req.paymentDetails.recipient)
          (n * 10 ^ 12), true)

/-- Second segment of `settle` (first variant), resumed after
`await tx.wait()`: record the confirmed result in the shared store, or
return the failure response without storing. `confirm` is the resolution of
the submitted transfer. -/
def stepConfirmAndRecord (nonce : String) (ph : Phase)
    (confirm : Except String (String × Option Nat)) (store : Store) : Phase × Store :=
  match ph with
  | Phase.submitted _ _ =>
    match confirm with
    | Except.ok (hash, bn) =>
      let result : SettleResponse :=
        { success := true, txHash := some hash, blockNumber := bn, error := none,
          settlementType := SettlementType.facilitator }
      (Phase.finished result, storeSet store nonce result)
    | Except.error msg =>
      (Phase.finished { success := false, txHash := none, blockNumber := none,
                        error := some ("Transaction failed: " ++ msg),
                        settlementType := SettlementType.facilitator }, store)
  | _ => (ph, store)

/-! ## Gated digital products (`api/x402/products.ts`, `api/x402/history.ts`) -/

def MERCHANT_ADDRESS : String := "0x000000000000000000000000000000000000dEaD"

def ZERO_ADDRESS : String := "0x0000000000000000000000000000000000000000"

/-- The content payloads the six product generators produce. Their JSON
bodies (sha256-derived access tokens, module lists, URLs) are abstracted to
a tag identifying which generator ran, applied to the paying transaction
hash it was generated from. -/
inductive GatedContent
| apiKey (txHash : String)
| premiumReport (txHash : String)
| codeTemplate (txHash : String)
| aiCredits (txHash : String)
| solidityCourse (txHash : String)
| defiCourse (txHash : String)
deriving Repr, DecidableEq

/-- One entry of `DIGITAL_PRODUCTS`. -/
structure Product where
  id : String
  name : String
  price : String
  currency : String
  generateContent : String → GatedContent

/-- `DIGITAL_PRODUCTS`, keyed by product id. -/
def DIGITAL_PRODUCTS : List (String × Product) :=
  [("api-key",
    { id := "api-key", name := "ArcShopper API Key", price := "0.50",
      currency := "USDC", generateContent := GatedContent.apiKey }),
   ("premium-report",
    { id := "premium-report", name := "DeFi Security Report 2024", price := "1.00",
      currency := "USDC", generateContent := GatedContent.premiumReport }),
   ("code-template",
    { id := "code-template", name := "x402 Payment Integration Kit", price := "2.00",
      currency := "USDC", generateContent := GatedContent.codeTemplate }),
   ("ai-credits",
    { id := "ai-credits", name := "100 AI Image Credits", price := "1.50",
      currency := "USDC", generateContent := GatedContent.aiCredits }),
   ("solidity-course",
    { id := "solidity-course", name := "Solidity Fundamentals", price := "1.00",
      currency := "USDC", generateContent := GatedContent.solidityCourse }),
   ("defi-course",
    { id := "defi-course", name := "DeFi Development", price := "2.00",
      currency := "USDC", generateContent := GatedContent.defiCourse })]

/-- `DIGITAL_PRODUCTS[productId]`. -/
def lookupProduct (pid : String) : Option Product :=
  match DIGITAL_PRODUCTS.find? (fun p => p.1 == pid) with
  | some p => some p.2
  | none => none

/-- The ledger view of a transaction receipt
(`provider.getTransactionReceipt`): the handler reads only `status`; the
remaining fields record what the receipt also carries and ignores. -/
structure ChainReceipt where
  status : Nat
  toAddr : String
  fromAddr : String
deriving Repr, DecidableEq

/-- The ledger view of the transaction itself (`provider.getTransaction`). -/
structure ChainTx where
  txFrom : String
  txTo : String
  value : Nat
deriving Repr, DecidableEq

/-- The JSON-RPC ledger as pure lookup functions (`none` = not found). -/
structure Ledger where
  getReceipt : String → Option ChainReceipt
  getTx : String → Option ChainTx

/-- The five receipt fields `signReceipt` is called with. -/
structure ReceiptCore where
  paymentTxHash : String
  productId : String
  contentHash : String
  amount : String
  buyer : String
deriving Repr, DecidableEq

/-- The `PaymentReceipt` returned by `signReceipt` (`api/x402/receipt.ts`);
`timestamp` and the random `nonce` are clock/randomness inputs abstracted
away, the EIP-712 signature is the abstracted `signFn` applied to the
receipt core. -/
structure ReceiptModel where
  paymentTxHash : String
  productId : String
  contentHash : String
  amount : String
  buyer : String
  signature : String
  merchant : String
deriving Repr, DecidableEq

/-- One purchase-history entry (`addPurchase` in `api/x402/history.ts`);
the random `id` and `timestamp` are abstracted away. -/
structure Purchase where
  productId : String
  productName : String
  amount : String
  txHash : String
  contentHash : String
  receipt : ReceiptModel
deriving Repr, DecidableEq

/-- The in-memory purchase history (user id paired with each recorded
purchase; the source's map-of-arrays is flattened, which preserves exactly
which purchases each user has). -/
abbrev History := List (String × Purchase)

/-- Observable effects of one products-handler call. -/
inductive HEffect
| generatedContent (productId : String) (txHash : String)
| signedReceipt (productId : String) (txHash : String)
deriving Repr, DecidableEq

/-- The handler's response (the HTTP statuses and JSON bodies of
`api/x402/products.ts`, structurally). `txNotFound` is the 402
"Transaction not found / Payment not yet confirmed. Please wait and retry."
response, `txFailed` the 402 "Transaction failed" response. -/
inductive ProductsResponse
| productNotFound (available : List String)
| paymentRequired (amount : String) (recipient : String) (productId : String)
| txNotFound (txHash : String)
| txFailed (txHash : String)
| delivered (productId : String) (content : GatedContent) (receipt : ReceiptModel)
deriving Repr, DecidableEq

/-- `const buyer = tx?.from || '0x0000...0000'`: the buyer address read
from the ledger transaction, defaulting to the zero address. -/
def buyerOf (ledger : Ledger) (txh : String) : String :=
  match ledger.getTx txh with
  | some t => t.txFrom
  | none => ZERO_ADDRESS

/-- The gated-products request handler. `hashFn` abstracts `hashContent`
(sha256 over the canonicalized content JSON), `signFn` the merchant
wallet's EIP-712 receipt signature, `merchantAddr` the merchant wallet
address. Returns the response, the purchase history afterwards, and the
effect log. -/
def productsHandler (ledger : Ledger) (hashFn : GatedContent → String)
    (signFn : ReceiptCore → String) (merchantAddr : String)
    (queryId : Option String) (txHashHeader : Option String) (history : History) :
    ProductsResponse × History × List HEffect :=
  let productId := queryId.getD "api-key"
  match lookupProduct productId with
  | none => (ProductsResponse.productNotFound (DIGITAL_PRODUCTS.map (fun p => p.1)),
             history, [])
  | some product =>
    match txHashHeader with
    | none => (ProductsResponse.paymentRequired product.price MERCHANT_ADDRESS product.id,
               history, [])
    | some txh =>
      match ledger.getReceipt txh with
      | none => (ProductsResponse.txNotFound txh, history, [])
      | some rcpt =>
        if rcpt.status != 1 then (ProductsResponse.txFailed txh, history, [])
        else
          let content := product.generateContent txh
          let contentHash := hashFn content
          let buyer := buyerOf ledger txh
          let core : ReceiptCore :=
            { paymentTxHash := txh, productId := product.id, contentHash := contentHash,
              amount := product.price, buyer := buyer }
          let signedReceipt : ReceiptModel :=
            { paymentTxHash := txh, productId := product.id, contentHash := contentHash,
              amount := product.price, buyer := buyer, signature := signFn core,
              merchant := merchantAddr }
          let history2 : History :=
            (buyer, { productId := product.id, productName := product.name,
                      amount := product.price, txHash := txh, contentHash := contentHash,
                      receipt := signedReceipt }) :: history
          (ProductsResponse.delivered product.id content signedReceipt, history2,
           [HEffect.generatedContent product.id txh, HEffect.signedReceipt product.id txh])

/-- The receipt core `signReceipt` is invoked with on the delivery path. -/
def deliveredCore (ledger : Ledger) (hashFn : GatedContent → String)
    (product : Product) (txh : String) : ReceiptCore :=
  { paymentTxHash := txh, productId := product.id,
    contentHash := hashFn (product.generateContent txh), amount := product.price,
    buyer := buyerOf ledger txh }

/-- The signed receipt the delivery path returns. -/
def deliveredReceipt (ledger : Ledger) (hashFn : GatedContent → String)
    (signFn : ReceiptCore → String) (merchantAddr : String)
    (product : Product) (txh : String) : ReceiptModel :=
  { paymentTxHash := txh, productId := product.id,
    contentHash := hashFn (product.generateContent txh), amount := product.price,
    buyer := buyerOf ledger txh,
    signature := signFn (deliveredCore ledger hashFn product txh),
    merchant := merchantAddr }

/-! ## Concrete fixtures for witnesses and counterexamples -/

/-- A well-formed payment claim on the supported network: 1 USDC
(1000000 at 6 decimals) with expiry 100. -/
def demoPD : PaymentDetails :=
  { version := "2", scheme := "exact", networkId := "eip155:5042002",
    asset := "0x3600000000000000000000000000000000000000",
    amount := "1000000",
    recipient := "0x000000000000000000000000000000000000dEaD",
    nonce := "0xaa01", expiry := 100 }

/-- The signed payment over `demoPD`. -/
def demoReq : VerifyRequest :=
  { signature := "0xsig", paymentDetails := demoPD, signer := "0xABCD" }

/-- A recovery oracle that recovers `demoReq`'s signer (up to case) from
every document. -/
def demoRecover : Recover := fun _ _ => some "0xabcd"

/-- A ledger transfer that always confirms with hash `0xtxhash1`, block 7. -/
def okTransfer : Transfer := fun _ _ => Except.ok ("0xtxhash1", some 7)

/-- A ledger transfer that always throws. -/
def errTransfer : Transfer := fun _ _ => Except.error "boom"

/-- A stand-in for the keccak-derived fallback address. -/
def demoKeccak : String → String := fun _ => "0x1111111111111111111111111111111111111111"

/-- The settlement record a successful `okTransfer` settlement produces. -/
def demoOkResp : SettleResponse :=
  { success := true, txHash := some "0xtxhash1", blockNumber := some 7, error := none,
    settlementType := SettlementType.facilitator }

/-- `demoPD` retargeted at an unsupported network. -/
def badNetPD : PaymentDetails :=
  { version := "2", scheme := "exact", networkId := "eip155:999999",
    asset := "0x3600000000000000000000000000000000000000",
    amount := "1000000",
    recipient := "0x000000000000000000000000000000000000dEaD",
    nonce := "0xaa03", expiry := 100 }

/-- The signed payment over `badNetPD`. -/
def badNetReq : VerifyRequest :=
  { signature := "0xsig", paymentDetails := badNetPD, signer := "0xABCD" }

/-- `demoPD` with a malformed recipient address string. -/
def badRecipientPD : PaymentDetails :=
  { version := "2", scheme := "exact", networkId := "eip155:5042002",
    asset := "0x3600000000000000000000000000000000000000",
    amount := "1000000", recipient := "bob", nonce := "0xbb02", expiry := 100 }

/-- The signed payment over `badRecipientPD`. -/
def badRecipientReq : VerifyRequest :=
  { signature := "0xsig", paymentDetails := badRecipientPD, signer := "0xABCD" }

/-- A recovery oracle faithful to the library encoder's address
validation: it recovers `demoReq`'s signer from every document whose
`address`-typed fields are well-formed, and throws (returns `none`) on
any document with a malformed address field, as `ethers.verifyTypedData`
does. -/
def faithfulRecover : Recover :=
  fun td _ => if addressFieldsValid td then some "0xabcd" else none

/-! Interleaved schedule of two `settle` calls for the same signed payment
on an initially empty store: task A checks and submits, task B checks and
submits (A has not yet written, so B still sees the empty store), A's
transfer confirms and is recorded, then B's transfer confirms and is
recorded over it. -/

/-- Task A's check-and-submit segment, against the empty store. -/
def raceA1 : Phase × Bool := stepCheckAndSubmit demoRecover demoKeccak 5042002 50 demoReq []

/-- Task B's check-and-submit segment; A has not yet reached its store
write, so B reads the same empty store. -/
def raceB1 : Phase × Bool := stepCheckAndSubmit demoRecover demoKeccak 5042002 50 demoReq []

/-- Task A resumes after `tx.wait()` (hash `0xa`) and records its result. -/
def raceA2 : Phase × Store :=
  stepConfirmAndRecord demoReq.paymentDetails.nonce raceA1.1 (Except.ok ("0xa", some 1)) []

/-- Task B resumes after `tx.wait()` (hash `0xb`) and records its result
over A's. -/
def raceB2 : Phase × Store :=
  stepConfirmAndRecord demoReq.paymentDetails.nonce raceB1.1 (Except.ok ("0xb", some 2)) raceA2.2

/-- A ledger holding exactly one mined, successful transaction `0xfeed`
paying the merchant. -/
def demoLedger : Ledger :=
  { getReceipt := fun h =>
      if h == "0xfeed" then
        some { status := 1, toAddr := MERCHANT_ADDRESS, fromAddr := "0xbuyer01" }
      else none,
    getTx := fun h =>
      if h == "0xfeed" then
        some { txFrom := "0xbuyer01", txTo := MERCHANT_ADDRESS, value := 500000 }
      else none }

/-- A content-hash stand-in. -/
def demoHashFn : GatedContent → String := fun _ => "0xc0ffee"

/-- A receipt-signature stand-in. -/
def demoSignFn : ReceiptCore → String := fun _ => "0xs16"

/-- The `api-key` product record, as `lookupProduct` returns it. -/
def apiKeyProduct : Product :=
  { id := "api-key", name := "ArcShopper API Key", price := "0.50",
    currency := "USDC", generateContent := GatedContent.apiKey }

/-- The `premium-report` product record, as `lookupProduct` returns it. -/
def premiumReportProduct : Product :=
  { id := "premium-report", name := "DeFi Security Report 2024", price := "1.00",
    currency := "USDC", generateContent := GatedContent.premiumReport }

/-- A ledger whose only transaction `0xfeed` is mined and successful but
transfers zero value to an address that is not the merchant's. -/
def strayLedger : Ledger :=
  { getReceipt := fun h =>
      if h == "0xfeed" then
        some { status := 1, toAddr := "0x9999999999999999999999999999999999999999",
               fromAddr := "0xbuyer01" }
      else none,
    getTx := fun h =>
      if h == "0xfeed" then
        some { txFrom := "0xbuyer01",
               txTo := "0x9999999999999999999999999999999999999999", value := 0 }
      else none }

/-! ## Helper lemmas -/

/-- Reading a key immediately after writing it returns the written value. -/
theorem storeGet_storeSet_self (s : Store) (k : String) (v : SettleResponse) :
    storeGet (storeSet s k v) k = some v := by
  induction s with
  | nil => simp [storeSet, storeGet]
  | cons hd tl ih =>
    obtain ⟨k2, v2⟩ := hd
    by_cases h : k2 = k
    · simp [storeSet, h, storeGet]
    · simp [storeSet, h, storeGet, ih]

/-- `verify` reports `valid` exactly when the network is supported, the
claim is unexpired, and signature recovery matches the claimed signer. -/
theorem verify_valid_iff (recover : Recover) (chainId now : Nat) (req : VerifyRequest) :
    (verify recover chainId now req).1.valid = true ↔
      req.paymentDetails.networkId ∈ SUPPORTED_NETWORKS ∧
      now < req.paymentDetails.expiry ∧
      verifySignature recover chainId req.signature req.paymentDetails req.signer = true := by
  by_cases h1 : req.paymentDetails.networkId ∈ SUPPORTED_NETWORKS
  · by_cases h2 : now < req.paymentDetails.expiry
    · simp [verify, h1, h2]
    · simp [verify, h1, h2]
  · simp [verify, h1]

/-! ## Claim C1: idempotent settlement replay -/

/-- C1 (counterexample): the claim as stated fails, because `settle`
re-runs verification before the idempotency lookup. After a first settle
call at time 50 stores the record for the nonce, a second settle call with
the very same signed payment at time 100 (the claim's expiry) returns the
expiry-failure response, not the cached record. -/
theorem settle_replay_after_expiry_cx :
    storeGet (settle demoRecover demoKeccak okTransfer 5042002 50 demoReq []).store
        demoReq.paymentDetails.nonce =
      some (settle demoRecover demoKeccak okTransfer 5042002 50 demoReq []).resp ∧
    (settle demoRecover demoKeccak okTransfer 5042002 100 demoReq
        (settle demoRecover demoKeccak okTransfer 5042002 50 demoReq []).store).resp ≠
      (settle demoRecover demoKeccak okTransfer 5042002 50 demoReq []).resp := by decide

/-- C1 (amended): if a first settle call stored a SettlementRecord under
the claim's nonce, then a second settle call with the same SignedPayment,
made while the claim still verifies (before its expiry), returns that
cached record unchanged, and the ledger-transfer primitive is invoked
exactly once across the two calls: once by the first (`transfers.length =
1`), never by the second (`transfers = []`). -/
theorem settle_idempotent_replay
    (recover : Recover) (keccakAddr : String → String) (transfer1 transfer2 : Transfer)
    (chainId now1 now2 : Nat) (req : VerifyRequest) (store0 : Store) (r : SettleResponse)
    (h0 : storeGet store0 req.paymentDetails.nonce = none)
    (h1 : storeGet (settle recover keccakAddr transfer1 chainId now1 req store0).store
            req.paymentDetails.nonce = some r)
    (hexp : now2 < req.paymentDetails.expiry) :
    settle recover keccakAddr transfer2 chainId now2 req
        (settle recover keccakAddr transfer1 chainId now1 req store0).store =
      { resp := r,
        store := (settle recover keccakAddr transfer1 chainId now1 req store0).store,
        transfers := [] } ∧
    (settle recover keccakAddr transfer1 chainId now1 req store0).resp = r ∧
    (settle recover keccakAddr transfer1 chainId now1 req store0).transfers.length = 1 := by
  cases hv : (verify recover chainId now1 req).1.valid with
  | false =>
    exfalso
    have hstore : (settle recover keccakAddr transfer1 chainId now1 req store0).store
        = store0 := by
      simp [settle, hv]
    rw [hstore, h0] at h1
    exact Option.noConfusion h1
  | true =>
    cases hp : parseDecNat req.paymentDetails.amount with
    | none =>
      exfalso
      have hstore : (settle recover keccakAddr transfer1 chainId now1 req store0).store
          = store0 := by
        simp [settle, hv, h0, hp]
      rw [hstore, h0] at h1
      exact Option.noConfusion h1
    | some n =>
      cases ht : transfer1 (resolvedRecipient keccakAddr req.paymentDetails.recipient)
          (n * 1000000000000) with
      | error msg =>
        exfalso
        have hstore : (settle recover keccakAddr transfer1 chainId now1 req store0).store
            = store0 := by
          simp [settle, hv, h0, hp, ht]
        rw [hstore, h0] at h1
        exact Option.noConfusion h1
      | ok pr =>
        obtain ⟨hash, bn⟩ := pr
        have hs1 : settle recover keccakAddr transfer1 chainId now1 req store0 =
            { resp := { success := true, txHash := some hash, blockNumber := bn, error := none,
                        settlementType := SettlementType.facilitator },
              store := storeSet store0 req.paymentDetails.nonce
                { success := true, txHash := some hash, blockNumber := bn, error := none,
                  settlementType := SettlementType.facilitator },
              transfers := [(resolvedRecipient keccakAddr req.paymentDetails.recipient,
                             n * 1000000000000)] } := by
          simp [settle, hv, h0, hp, ht]
        rw [hs1] at h1
        simp only [storeGet_storeSet_self] at h1
        have hr := Option.some.inj h1
        subst hr
        have hvalid2 : (verify recover chainId now2 req).1.valid = true := by
          rw [verify_valid_iff] at hv ⊢
          exact ⟨hv.1, hexp, hv.2.2⟩
        rw [hs1]
        refine ⟨?_, rfl, rfl⟩
        simp [settle, hvalid2, storeGet_storeSet_self]

/-- C1 (witness): `settle_idempotent_replay` applied at the demo payment,
first call at time 50, second call at time 60. -/
theorem settle_idempotent_replay_witness :
    (storeGet ([] : Store) demoReq.paymentDetails.nonce = none ∧
     storeGet (settle demoRecover demoKeccak okTransfer 5042002 50 demoReq []).store
       demoReq.paymentDetails.nonce = some demoOkResp ∧
     (60 : Nat) < demoReq.paymentDetails.expiry) ∧
    (settle demoRecover demoKeccak okTransfer 5042002 60 demoReq
        (settle demoRecover demoKeccak okTransfer 5042002 50 demoReq []).store =
      { resp := demoOkResp,
        store := (settle demoRecover demoKeccak okTransfer 5042002 50 demoReq []).store,
        transfers := [] } ∧
     (settle demoRecover demoKeccak okTransfer 5042002 50 demoReq []).resp = demoOkResp ∧
     (settle demoRecover demoKeccak okTransfer 5042002 50 demoReq []).transfers.length = 1) :=
  ⟨⟨by decide, by decide, by decide⟩,
   settle_idempotent_replay demoRecover demoKeccak okTransfer okTransfer 5042002 50 60
     demoReq [] demoOkResp (by decide) (by decide) (by decide)⟩

/-! ## Claim C2: same-nonce settle race -/

/-- C2: two concurrent settle calls with the same signed payment (same
nonce) both pass the idempotency check before either writes the store,
because the store write happens only after the transfer confirmation
awaits. In the interleaving A-check/submit, B-check/submit, A-record,
B-record, both segments submit a ledger transfer (both flags `true`), both
callers finish successfully with different transaction hashes, and the
final store holds only the second record — two transfers were submitted
for one nonce, refuting the critical-section claim. -/
theorem settle_race_double_transfer :
    (raceA1.2 = true ∧ raceB1.2 = true) ∧
    raceA2.1 = Phase.finished { success := true, txHash := some "0xa", blockNumber := some 1,
                                error := none,
                                settlementType := SettlementType.facilitator } ∧
    raceB2.1 = Phase.finished { success := true, txHash := some "0xb", blockNumber := some 2,
                                error := none,
                                settlementType := SettlementType.facilitator } ∧
    storeGet raceB2.2 demoReq.paymentDetails.nonce =
      some { success := true, txHash := some "0xb", blockNumber := some 2,
             error := none, settlementType := SettlementType.facilitator } := by decide

/-! ## Claim C3: failed transfers are not terminal for the nonce -/

/-- C3: evaluating both `settle` variants on a valid payment whose ledger
transfer throws. The first variant returns `{success:false, error}` but
leaves the store empty, so an immediate retry with the same nonce invokes
the transfer primitive again; the second variant stores a fabricated
`{success:true, txHash:demoHash, settlementType:'direct'}` record instead
of a failed one. Neither stores a failed record under the nonce as the
claim states. -/
theorem settle_transfer_failure_not_terminal :
    (settle demoRecover demoKeccak errTransfer 5042002 50 demoReq []).resp =
      { success := false, txHash := none, blockNumber := none,
        error := some "Transaction failed: boom",
        settlementType := SettlementType.facilitator } ∧
    (settle demoRecover demoKeccak errTransfer 5042002 50 demoReq []).store = [] ∧
    (settle demoRecover demoKeccak errTransfer 5042002 50 demoReq
        (settle demoRecover demoKeccak errTransfer 5042002 50 demoReq []).store).transfers.length
      = 1 ∧
    (settleAlt demoRecover demoKeccak errTransfer "0xdemo" 5042002 50 demoReq []).resp =
      { success := true, txHash := some "0xdemo", blockNumber := none, error := none,
        settlementType := SettlementType.direct } ∧
    storeGet (settleAlt demoRecover demoKeccak errTransfer "0xdemo" 5042002 50 demoReq []).store
        demoReq.paymentDetails.nonce =
      some { success := true, txHash := some "0xdemo", blockNumber := none, error := none,
             settlementType := SettlementType.direct } := by decide

/-! ## Claim C4: unsupported network short-circuits verify -/

/-- C4: a verify request whose `networkId` is not in `SUPPORTED_NETWORKS`
yields `{valid:false, signerVerified:false, networkMatch:false,
notExpired:true}` with the unsupported-network error, and the signature
recovery step is never reached (the instrumentation flag is `false`),
for every recovery oracle, chain id and clock. -/
theorem verify_unsupported_network_rejected (recover : Recover) (chainId now : Nat)
    (req : VerifyRequest) (h : req.paymentDetails.networkId ∉ SUPPORTED_NETWORKS) :
    (verify recover chainId now req).1 =
      { valid := false, signerVerified := false, networkMatch := false, notExpired := true,
        error := some ("Unsupported network: " ++ req.paymentDetails.networkId) } ∧
    (verify recover chainId now req).2 = false := by
  simp [verify, h]

/-- C4 (witness): `verify_unsupported_network_rejected` at the
`eip155:999999` payment against the `eip155:5042002` allow-list. -/
theorem verify_unsupported_network_rejected_witness :
    badNetReq.paymentDetails.networkId ∉ SUPPORTED_NETWORKS ∧
    ((verify demoRecover 5042002 50 badNetReq).1 =
      { valid := false, signerVerified := false, networkMatch := false, notExpired := true,
        error := some ("Unsupported network: " ++ badNetReq.paymentDetails.networkId) } ∧
     (verify demoRecover 5042002 50 badNetReq).2 = false) :=
  ⟨by decide, verify_unsupported_network_rejected demoRecover 5042002 50 badNetReq (by decide)⟩

/-! ## Claim C5: strict expiry boundary -/

/-- C5: on a supported network, `verify` reports `notExpired = false`
exactly when `expiry ≤ now` (so `expiry = now` is expired while
`expiry = now + 1` is not: the check is the strict `now < expiry`), and an
expired claim is never `valid`. -/
theorem verify_expiry_strict_boundary (recover : Recover) (chainId now : Nat)
    (req : VerifyRequest) (h : req.paymentDetails.networkId ∈ SUPPORTED_NETWORKS) :
    ((verify recover chainId now req).1.notExpired = false ↔
      req.paymentDetails.expiry ≤ now) ∧
    ((verify recover chainId now req).1.notExpired = false →
      (verify recover chainId now req).1.valid = false) := by
  by_cases h2 : now < req.paymentDetails.expiry
  · constructor
    · simp [verify, h, h2]
    · simp [verify, h, h2]
  · constructor
    · simp [verify, h, h2]
      omega
    · simp [verify, h, h2]

/-- C5 (witness): `verify_expiry_strict_boundary` at the demo payment with
the clock exactly at its expiry (100). -/
theorem verify_expiry_strict_boundary_witness :
    demoReq.paymentDetails.networkId ∈ SUPPORTED_NETWORKS ∧
    (((verify demoRecover 5042002 100 demoReq).1.notExpired = false ↔
        demoReq.paymentDetails.expiry ≤ 100) ∧
     ((verify demoRecover 5042002 100 demoReq).1.notExpired = false →
        (verify demoRecover 5042002 100 demoReq).1.valid = false)) :=
  ⟨by decide, verify_expiry_strict_boundary demoRecover 5042002 100 demoReq (by decide)⟩

/-! ## Claim C6: signer verification over the exact EIP-712 document -/

/-- C6: on a supported, unexpired claim, `verify`'s `signerVerified` is
`true` precisely when recovery over the typed-data document with domain
`{name:"x402", version:"2" (the protocol version), chainId := the
configured chain, verifyingContract := claim.asset}` and the Payment
fields in the fixed order version, scheme, networkId, asset, amount,
recipient, nonce, expiry yields an address equal to the claimed signer up
to ASCII case. -/
theorem verify_signer_recovery_spec (recover : Recover) (chainId now : Nat)
    (req : VerifyRequest)
    (hnet : req.paymentDetails.networkId ∈ SUPPORTED_NETWORKS)
    (hexp : now < req.paymentDetails.expiry) :
    (verify recover chainId now req).1.signerVerified = true ↔
      ∃ a, recover { domain := { name := "x402", version := "2", chainId := chainId,
                                 verifyingContract := req.paymentDetails.asset },
                     types := [("version", FieldType.string), ("scheme", FieldType.string),
                               ("networkId", FieldType.string), ("asset", FieldType.address),
                               ("amount", FieldType.uint256),
                               ("recipient", FieldType.address),
                               ("nonce", FieldType.bytes32), ("expiry", FieldType.uint256)],
                     values := [("version", TDValue.str req.paymentDetails.version),
                                ("scheme", TDValue.str req.paymentDetails.scheme),
                                ("networkId", TDValue.str req.paymentDetails.networkId),
                                ("asset", TDValue.str req.paymentDetails.asset),
                                ("amount", TDValue.str req.paymentDetails.amount),
                                ("recipient", TDValue.str req.paymentDetails.recipient),
                                ("nonce", TDValue.str req.paymentDetails.nonce),
                                ("expiry", TDValue.num req.paymentDetails.expiry)] }
              req.signature = some a ∧
           lowerStr a = lowerStr req.signer := by
  have htd : paymentTypedData chainId req.paymentDetails =
      { domain := { name := "x402", version := "2", chainId := chainId,
                    verifyingContract := req.paymentDetails.asset },
        types := [("version", FieldType.string), ("scheme", FieldType.string),
                  ("networkId", FieldType.string), ("asset", FieldType.address),
                  ("amount", FieldType.uint256), ("recipient", FieldType.address),
                  ("nonce", FieldType.bytes32), ("expiry", FieldType.uint256)],
        values := [("version", TDValue.str req.paymentDetails.version),
                   ("scheme", TDValue.str req.paymentDetails.scheme),
                   ("networkId", TDValue.str req.paymentDetails.networkId),
                   ("asset", TDValue.str req.paymentDetails.asset),
                   ("amount", TDValue.str req.paymentDetails.amount),
                   ("recipient", TDValue.str req.paymentDetails.recipient),
                   ("nonce", TDValue.str req.paymentDetails.nonce),
                   ("expiry", TDValue.num req.paymentDetails.expiry)] } := rfl
  have hv : (verify recover chainId now req).1.signerVerified =
      verifySignature recover chainId req.signature req.paymentDetails req.signer := by
    simp [verify, hnet, hexp]
  rw [hv, ← htd]
  unfold verifySignature
  cases hr : recover (paymentTypedData chainId req.paymentDetails) req.signature with
  | none => simp
  | some a => simp [beq_iff_eq]

/-- C6 (witness): `verify_signer_recovery_spec` at the demo payment at
time 50. -/
theorem verify_signer_recovery_spec_witness :
    (demoReq.paymentDetails.networkId ∈ SUPPORTED_NETWORKS ∧
     (50 : Nat) < demoReq.paymentDetails.expiry) ∧
    ((verify demoRecover 5042002 50 demoReq).1.signerVerified = true ↔
      ∃ a, demoRecover
          { domain := { name := "x402", version := "2", chainId := 5042002,
                        verifyingContract := demoReq.paymentDetails.asset },
            types := [("version", FieldType.string), ("scheme", FieldType.string),
                      ("networkId", FieldType.string), ("asset", FieldType.address),
                      ("amount", FieldType.uint256),
                      ("recipient", FieldType.address),
                      ("nonce", FieldType.bytes32), ("expiry", FieldType.uint256)],
            values := [("version", TDValue.str demoReq.paymentDetails.version),
                       ("scheme", TDValue.str demoReq.paymentDetails.scheme),
                       ("networkId", TDValue.str demoReq.paymentDetails.networkId),
                       ("asset", TDValue.str demoReq.paymentDetails.asset),
                       ("amount", TDValue.str demoReq.paymentDetails.amount),
                       ("recipient", TDValue.str demoReq.paymentDetails.recipient),
                       ("nonce", TDValue.str demoReq.paymentDetails.nonce),
                       ("expiry", TDValue.num demoReq.paymentDetails.expiry)] }
          demoReq.signature = some a ∧
        lowerStr a = lowerStr demoReq.signer) :=
  ⟨⟨by decide, by decide⟩,
   verify_signer_recovery_spec demoRecover 5042002 50 demoReq (by decide) (by decide)⟩

/-! ## Claim C7: malformed recipient addresses -/

/-- C7 (counterexample): a settle request whose recipient is the malformed
address string `"bob"`, under a recovery oracle faithful to the library
encoder's address validation, is rejected — but not before cryptographic
work and not with an InvalidClaimFormat outcome: the signature-recovery
step is reached (instrumentation flag `true`; the encoder throws inside
it), `verify` reports a plain signature failure
`{valid:false, signerVerified:false, networkMatch:true, notExpired:true}`
with no error field, and `settle` returns the generic
`'Payment verification failed'` failure. -/
theorem settle_malformed_recipient_not_format_cx :
    getAddress badRecipientReq.paymentDetails.recipient = none ∧
    (verify faithfulRecover 5042002 50 badRecipientReq).2 = true ∧
    (verify faithfulRecover 5042002 50 badRecipientReq).1 =
      { valid := false, signerVerified := false, networkMatch := true, notExpired := true,
        error := none } ∧
    settle faithfulRecover demoKeccak okTransfer 5042002 50 badRecipientReq [] =
      { resp := { success := false, txHash := none, blockNumber := none,
                  error := some "Payment verification failed",
                  settlementType := SettlementType.facilitator },
        store := [], transfers := [] } := by decide

/-- C7 (amended): for every settle request whose recipient is a malformed
address string, under any recovery oracle at least as strict as the real
typed-data encoder (recovery fails on documents with malformed
`address`-typed fields, as `ethers.verifyTypedData` does), `settle`
rejects the request as a signature-verification failure: it returns
`success = false`, executes no ledger transfer, and leaves the settlement
store unchanged (the nonce slot stays empty). The keccak-derived
recipient fallback is unreachable on this path, and no InvalidClaimFormat
outcome exists. -/
theorem settle_malformed_recipient_rejected
    (recover : Recover) (keccakAddr : String → String) (transfer : Transfer)
    (chainId now : Nat) (req : VerifyRequest) (store : Store)
    (hfaithful : ∀ td sig, addressFieldsValid td = false → recover td sig = none)
    (hbad : getAddress req.paymentDetails.recipient = none) :
    (settle recover keccakAddr transfer chainId now req store).resp.success = false ∧
    (settle recover keccakAddr transfer chainId now req store).transfers = [] ∧
    (settle recover keccakAddr transfer chainId now req store).store = store := by
  have hbad' : isAddressString req.paymentDetails.recipient = false := by
    cases hi : isAddressString req.paymentDetails.recipient
    · rfl
    · simp [getAddress, hi] at hbad
  have hv : (verify recover chainId now req).1.valid = false := by
    by_cases h1 : req.paymentDetails.networkId ∈ SUPPORTED_NETWORKS
    · by_cases h2 : now < req.paymentDetails.expiry
      · have haddr : addressFieldsValid (paymentTypedData chainId req.paymentDetails)
            = false := by
          simp [addressFieldsValid, paymentTypedData, PAYMENT_TYPES, fieldTypeOf, getDomain,
                hbad']
        have hnone := hfaithful (paymentTypedData chainId req.paymentDetails)
          req.signature haddr
        have hsig : verifySignature recover chainId req.signature req.paymentDetails
            req.signer = false := by
          simp [verifySignature, hnone]
        simp [verify, h1, h2, hsig]
      · simp [verify, h1, h2]
    · simp [verify, h1]
  refine ⟨?_, ?_, ?_⟩ <;> simp [settle, hv]

/-- C7 (witness): `settle_malformed_recipient_rejected` applied at the
payment whose recipient is `"bob"`, with the concrete encoder-faithful
oracle `faithfulRecover`. -/
theorem settle_malformed_recipient_rejected_witness :
    getAddress badRecipientReq.paymentDetails.recipient = none ∧
    ((settle faithfulRecover demoKeccak okTransfer 5042002 50 badRecipientReq
        []).resp.success = false ∧
     (settle faithfulRecover demoKeccak okTransfer 5042002 50 badRecipientReq
        []).transfers = [] ∧
     (settle faithfulRecover demoKeccak okTransfer 5042002 50 badRecipientReq
        []).store = []) :=
  ⟨by decide,
   settle_malformed_recipient_rejected faithfulRecover demoKeccak okTransfer 5042002 50
     badRecipientReq [] (fun td sig h => by simp [faithfulRecover, h]) (by decide)⟩

/-! ## Claim C8: proof verification gates content delivery -/

/-- C8: for a bare transaction id presented as proof for an existing
product: if the ledger has no receipt for it, the handler answers the
retryable `txNotFound` response with no effects; if the receipt's status
is not success, the terminal `txFailed` response with no effects; the
content generator and receipt signer run only when a successful receipt
exists; and in that case the product's content is generated from the
transaction hash, the receipt is signed, and the purchase recorded. -/
theorem products_proof_verification_gate
    (ledger : Ledger) (hashFn : GatedContent → String) (signFn : ReceiptCore → String)
    (merchantAddr : String) (pid : String) (product : Product) (txh : String)
    (history : History) (hp : lookupProduct pid = some product) :
    (ledger.getReceipt txh = none →
      productsHandler ledger hashFn signFn merchantAddr (some pid) (some txh) history =
        (ProductsResponse.txNotFound txh, history, [])) ∧
    (∀ r, ledger.getReceipt txh = some r → r.status ≠ 1 →
      productsHandler ledger hashFn signFn merchantAddr (some pid) (some txh) history =
        (ProductsResponse.txFailed txh, history, [])) ∧
    (∀ e, e ∈ (productsHandler ledger hashFn signFn merchantAddr (some pid) (some txh)
        history).2.2 →
      ∃ r, ledger.getReceipt txh = some r ∧ r.status = 1) ∧
    (∀ r, ledger.getReceipt txh = some r → r.status = 1 →
      productsHandler ledger hashFn signFn merchantAddr (some pid) (some txh) history =
        (ProductsResponse.delivered product.id (product.generateContent txh)
           (deliveredReceipt ledger hashFn signFn merchantAddr product txh),
         (buyerOf ledger txh,
          { productId := product.id, productName := product.name, amount := product.price,
            txHash := txh, contentHash := hashFn (product.generateContent txh),
            receipt := deliveredReceipt ledger hashFn signFn merchantAddr product txh })
           :: history,
         [HEffect.generatedContent product.id txh,
          HEffect.signedReceipt product.id txh])) := by
  refine ⟨?_, ?_, ?_, ?_⟩
  · intro hr
    simp [productsHandler, hp, hr]
  · intro r hr hs
    simp [productsHandler, hp, hr, hs]
  · intro e he
    cases hr : ledger.getReceipt txh with
    | none => simp [productsHandler, hp, hr] at he
    | some r =>
      by_cases hs : r.status = 1
      · exact ⟨r, rfl, hs⟩
      · simp [productsHandler, hp, hr, hs] at he
  · intro r hr hs
    simp [productsHandler, hp, hr, hs, deliveredReceipt, deliveredCore]

/-- C8 (witness): `products_proof_verification_gate` at the `api-key`
product over `demoLedger`. -/
theorem products_proof_verification_gate_witness :
    lookupProduct "api-key" = some apiKeyProduct ∧
    ((demoLedger.getReceipt "0xmissing" = none →
      productsHandler demoLedger demoHashFn demoSignFn "0xmerchant" (some "api-key")
          (some "0xmissing") [] =
        (ProductsResponse.txNotFound "0xmissing", [], [])) ∧
     (∀ r, demoLedger.getReceipt "0xmissing" = some r → r.status ≠ 1 →
      productsHandler demoLedger demoHashFn demoSignFn "0xmerchant" (some "api-key")
          (some "0xmissing") [] =
        (ProductsResponse.txFailed "0xmissing", [], [])) ∧
     (∀ e, e ∈ (productsHandler demoLedger demoHashFn demoSignFn "0xmerchant"
          (some "api-key") (some "0xmissing") []).2.2 →
      ∃ r, demoLedger.getReceipt "0xmissing" = some r ∧ r.status = 1) ∧
     (∀ r, demoLedger.getReceipt "0xmissing" = some r → r.status = 1 →
      productsHandler demoLedger demoHashFn demoSignFn "0xmerchant" (some "api-key")
          (some "0xmissing") [] =
        (ProductsResponse.delivered apiKeyProduct.id (apiKeyProduct.generateContent "0xmissing")
           (deliveredReceipt demoLedger demoHashFn demoSignFn "0xmerchant" apiKeyProduct
             "0xmissing"),
         (buyerOf demoLedger "0xmissing",
          { productId := apiKeyProduct.id, productName := apiKeyProduct.name,
            amount := apiKeyProduct.price, txHash := "0xmissing",
            contentHash := demoHashFn (apiKeyProduct.generateContent "0xmissing"),
            receipt := deliveredReceipt demoLedger demoHashFn demoSignFn "0xmerchant"
              apiKeyProduct "0xmissing" }) :: [],
         [HEffect.generatedContent apiKeyProduct.id "0xmissing",
          HEffect.signedReceipt apiKeyProduct.id "0xmissing"]))) :=
  ⟨rfl, products_proof_verification_gate demoLedger demoHashFn demoSignFn "0xmerchant"
    "api-key" apiKeyProduct "0xmissing" [] rfl⟩

/-! ## Claim C9: no binding between transaction id and resource -/

/-- C9 (counterexample): transaction `0xfeed` is first redeemed for the
`api-key` product (content delivered); presenting the same transaction id
as proof for the distinct `premium-report` product, with the purchase
history left by the first redemption, again delivers the second product's
full content — refuting the claim that a settled transaction id cannot
re-mint content for a different resource. -/
theorem products_cross_resource_replay_cx :
    (productsHandler demoLedger demoHashFn demoSignFn "0xmerchant" (some "api-key")
        (some "0xfeed") []).1 =
      ProductsResponse.delivered "api-key" (GatedContent.apiKey "0xfeed")
        { paymentTxHash := "0xfeed", productId := "api-key", contentHash := "0xc0ffee",
          amount := "0.50", buyer := "0xbuyer01", signature := "0xs16",
          merchant := "0xmerchant" } ∧
    (productsHandler demoLedger demoHashFn demoSignFn "0xmerchant" (some "premium-report")
        (some "0xfeed")
        (productsHandler demoLedger demoHashFn demoSignFn "0xmerchant" (some "api-key")
          (some "0xfeed") []).2.1).1 =
      ProductsResponse.delivered "premium-report" (GatedContent.premiumReport "0xfeed")
        { paymentTxHash := "0xfeed", productId := "premium-report",
          contentHash := "0xc0ffee", amount := "1.00", buyer := "0xbuyer01",
          signature := "0xs16", merchant := "0xmerchant" } := by decide

/-- C9 (amended): the handler enforces no binding between proof and
resource id: for any two existing products and any transaction id with a
successful receipt, redeeming the id for the first product delivers its
content, and presenting the same id for the second product — with the
purchase history updated by the first redemption — delivers the second
product's content as well. -/
theorem products_no_resource_binding
    (ledger : Ledger) (hashFn : GatedContent → String) (signFn : ReceiptCore → String)
    (merchantAddr : String) (pid1 pid2 : String) (p1 p2 : Product) (txh : String)
    (history : History) (r : ChainReceipt)
    (h1 : lookupProduct pid1 = some p1) (h2 : lookupProduct pid2 = some p2)
    (hr : ledger.getReceipt txh = some r) (hs : r.status = 1) :
    (productsHandler ledger hashFn signFn merchantAddr (some pid1) (some txh) history).1 =
      ProductsResponse.delivered p1.id (p1.generateContent txh)
        (deliveredReceipt ledger hashFn signFn merchantAddr p1 txh) ∧
    (productsHandler ledger hashFn signFn merchantAddr (some pid2) (some txh)
        (productsHandler ledger hashFn signFn merchantAddr (some pid1) (some txh)
          history).2.1).1 =
      ProductsResponse.delivered p2.id (p2.generateContent txh)
        (deliveredReceipt ledger hashFn signFn merchantAddr p2 txh) := by
  constructor <;> simp [productsHandler, h1, h2, hr, hs, deliveredReceipt, deliveredCore]

/-- C9 (witness): `products_no_resource_binding` at the `api-key` and
`premium-report` products over `demoLedger`. -/
theorem products_no_resource_binding_witness :
    (lookupProduct "api-key" = some apiKeyProduct ∧
     lookupProduct "premium-report" = some premiumReportProduct ∧
     demoLedger.getReceipt "0xfeed" =
       some { status := 1, toAddr := MERCHANT_ADDRESS, fromAddr := "0xbuyer01" }) ∧
    ((productsHandler demoLedger demoHashFn demoSignFn "0xmerchant" (some "api-key")
        (some "0xfeed") []).1 =
      ProductsResponse.delivered apiKeyProduct.id (apiKeyProduct.generateContent "0xfeed")
        (deliveredReceipt demoLedger demoHashFn demoSignFn "0xmerchant" apiKeyProduct
          "0xfeed") ∧
     (productsHandler demoLedger demoHashFn demoSignFn "0xmerchant" (some "premium-report")
        (some "0xfeed")
        (productsHandler demoLedger demoHashFn demoSignFn "0xmerchant" (some "api-key")
          (some "0xfeed") []).2.1).1 =
      ProductsResponse.delivered premiumReportProduct.id
        (premiumReportProduct.generateContent "0xfeed")
        (deliveredReceipt demoLedger demoHashFn demoSignFn "0xmerchant"
          premiumReportProduct "0xfeed")) :=
  ⟨⟨rfl, rfl, rfl⟩,
   products_no_resource_binding demoLedger demoHashFn demoSignFn "0xmerchant" "api-key"
     "premium-report" apiKeyProduct premiumReportProduct "0xfeed" []
     { status := 1, toAddr := MERCHANT_ADDRESS, fromAddr := "0xbuyer01" } rfl rfl rfl rfl⟩

/-! ## Claim C10: only mined-and-successful is checked -/

/-- C10: for every ledger, product and transaction id whose receipt exists
with success status, the handler delivers the product's full content and
signs a receipt — the quantification ranges over arbitrary receipt and
transaction fields, so the delivered outcome is independent of the
transaction's transferred value, destination address and asset; only the
existence of the receipt and its success status are consulted. -/
theorem products_delivers_regardless_of_payment
    (ledger : Ledger) (hashFn : GatedContent → String) (signFn : ReceiptCore → String)
    (merchantAddr : String) (pid : String) (product : Product) (txh : String)
    (history : History) (r : ChainReceipt)
    (hp : lookupProduct pid = some product)
    (hr : ledger.getReceipt txh = some r) (hs : r.status = 1) :
    (productsHandler ledger hashFn signFn merchantAddr (some pid) (some txh) history).1 =
      ProductsResponse.delivered product.id (product.generateContent txh)
        (deliveredReceipt ledger hashFn signFn merchantAddr product txh) ∧
    (productsHandler ledger hashFn signFn merchantAddr (some pid) (some txh) history).2.2 =
      [HEffect.generatedContent product.id txh, HEffect.signedReceipt product.id txh] := by
  constructor <;> simp [productsHandler, hp, hr, hs, deliveredReceipt, deliveredCore]

/-- C10 (witness): `products_delivers_regardless_of_payment` over
`strayLedger`, whose only transaction pays zero value to an address that
is not the merchant's — the content is delivered and the receipt signed
anyway. -/
theorem products_delivers_regardless_of_payment_witness :
    (lookupProduct "api-key" = some apiKeyProduct ∧
     strayLedger.getReceipt "0xfeed" =
       some { status := 1, toAddr := "0x9999999999999999999999999999999999999999",
              fromAddr := "0xbuyer01" } ∧
     (1 : Nat) = 1) ∧
    ((productsHandler strayLedger demoHashFn demoSignFn "0xmerchant" (some "api-key")
        (some "0xfeed") []).1 =
      ProductsResponse.delivered apiKeyProduct.id (apiKeyProduct.generateContent "0xfeed")
        (deliveredReceipt strayLedger demoHashFn demoSignFn "0xmerchant" apiKeyProduct
          "0xfeed") ∧
     (productsHandler strayLedger demoHashFn demoSignFn "0xmerchant" (some "api-key")
        (some "0xfeed") []).2.2 =
      [HEffect.generatedContent apiKeyProduct.id "0xfeed",
       HEffect.signedReceipt apiKeyProduct.id "0xfeed"]) :=
  ⟨⟨rfl, rfl, rfl⟩,
   products_delivers_regardless_of_payment strayLedger demoHashFn demoSignFn "0xmerchant"
     "api-key" apiKeyProduct "0xfeed" []
     { status := 1, toAddr := "0x9999999999999999999999999999999999999999",
       fromAddr := "0xbuyer01" } rfl rfl rfl⟩

end X402
